import Mathlib

/-!
Verification of the vertexpath-skillbuilder backend (src/backend.py) against
its natural-language specification.

The Python code is shallowly embedded: Python string operations are modelled
as structurally recursive functions on the character list of a `String`, the
retry loop of `get_embedding` as a fuel recursion recording the number of
remote calls and the sleep durations, and the `/search` handler as a pure
function from the posting catalog, the outcome of the remote skill
extraction, and the query title to a response value.
-/

set_option autoImplicit false

namespace VertexPath

/-! ## Python string primitives (models of str.strip, str.lower, str.split) -/

/-- Model of Python str.strip(): drop whitespace at both ends. -/
def pyStrip (s : String) : String :=
  ⟨((s.data.dropWhile Char.isWhitespace).reverse.dropWhile Char.isWhitespace).reverse⟩

/-- Model of Python str.lower() (ASCII, which covers the data in scope). -/
def pyLower (s : String) : String :=
  ⟨s.data.map Char.toLower⟩

/-- Splitting helper on a character list; mirrors Python str.split(sep). -/
def pySplitAux (sep : Char) : List Char → List Char → List (List Char)
  | [], acc => [acc.reverse]
  | c :: cs, acc =>
    if c = sep then acc.reverse :: pySplitAux sep cs []
    else pySplitAux sep cs (c :: acc)

/-- Model of Python s.split(","): like Python, "".split(",") = [""]. -/
def pySplitComma (s : String) : List String :=
  (pySplitAux ',' s.data []).map fun cs => ⟨cs⟩

/-! ## EmbeddingClient: get_embedding (src/backend.py lines 13-43) -/

/-- Outcome of one remote invoke_model call, as observed by the retry loop:
a successful embedding vector, a throttling signal (a ClientError whose code
is ThrottlingException, or a ThrottlingException raised directly), or any
other remote error (a ClientError with another code, which the loop
re-raises). -/
inductive InvokeOutcome (α : Type) where
  | success (v : α)
  | throttle
  | clientError (msg : String)
deriving DecidableEq

/-- The exception with which `get_embedding` terminates abnormally: either the
re-raised remote ClientError or the plain Exception raised after the loop. -/
inductive EmbedError where
  | clientError (msg : String)
  | maxRetries (msg : String)
deriving DecidableEq

/-- Result value of `get_embedding`: the returned vector or the raised error. -/
inductive EmbedResult (α : Type) where
  | ok (v : α)
  | error (e : EmbedError)
deriving DecidableEq

/-- Observable trace of one `get_embedding` call: how many remote calls were
issued, the sequence of time.sleep durations (seconds, in order), and the
result. -/
structure RunTrace (α : Type) where
  calls : Nat
  sleeps : List Nat
  result : EmbedResult α
deriving DecidableEq

/-- The retry loop of `get_embedding`: `for attempt in range(max_retries)`,
with `delay` starting at 1 and doubling after every throttled attempt, a
sleep of the current delay on throttling, an immediate re-raise on any other
ClientError, and `Exception("Max retries exceeded for Bedrock embedding
request")` once the loop ends. `outcomes i` is the remote outcome of the
i-th call. -/
def get_embedding_loop {α : Type} (outcomes : Nat → InvokeOutcome α) :
    Nat → Nat → Nat → List Nat → Nat → RunTrace α
  | 0, _, _, sleeps, calls =>
    ⟨calls, sleeps.reverse,
      .error (.maxRetries "Max retries exceeded for Bedrock embedding request")⟩
  | fuel + 1, attempt, delay, sleeps, calls =>
    match outcomes attempt with
    | .success v => ⟨calls + 1, sleeps.reverse, .ok v⟩
    | .throttle =>
      get_embedding_loop outcomes fuel (attempt + 1) (delay * 2) (delay :: sleeps) (calls + 1)
    | .clientError msg => ⟨calls + 1, sleeps.reverse, .error (.clientError msg)⟩

/-- Model of `get_embedding` (src/backend.py lines 13-43): max_retries = 5,
initial delay 1 second. -/
def get_embedding {α : Type} (outcomes : Nat → InvokeOutcome α) : RunTrace α :=
  get_embedding_loop outcomes 5 0 1 [] 0

/-! ## The posting catalog and the /search handler (src/backend.py lines 84-131) -/

/-- One row of the job dataset, with the columns the handler reads. -/
structure Posting where
  job_title : String
  job_description : String
  required_skills : String
deriving DecidableEq

/-- The comma-split-strip-lower-filter idiom used for both the extracted
resume skills (line 104) and a posting's required skills (line 114):
`[s.strip().lower() for s in raw.split(",") if s.strip()]`. -/
def parseSkills (raw : String) : List String :=
  ((pySplitComma raw).filter fun s => pyStrip s != "").map fun s => pyLower (pyStrip s)

/-- Outcome of the remote Nova Pro skill-extraction call inside /search:
either a response whose completion field holds `completion` (a missing field
reads as ""), or any raised exception. -/
inductive ExtractOutcome where
  | ok (completion : String)
  | err (msg : String)
deriving DecidableEq

/-- The resume skills the handler ends up with (lines 97-107): the parsed
completion on success, the empty list when the remote call raised (the
exception is caught, logged and discarded). -/
def resumeSkillsOf : ExtractOutcome → List String
  | .ok completion => parseSkills completion
  | .err _ => []

/-- The title filter of line 110:
`df["job_title"].str.lower() == q.job_title.strip().lower()` — the catalog
title is lowercased only, the query is stripped then lowercased. -/
def titleMatches (df_title q_title : String) : Bool :=
  pyLower df_title == pyLower (pyStrip q_title)

/-- Response of the /search handler. -/
inductive SearchResponse where
  | notFound (error : String) (resume_skills : List String)
  | found (job_title : String) (job_skills : List String)
      (resume_skills : List String) (skill_matches : List (String × Bool))
      (similarity : ℚ)
deriving DecidableEq

/-- Whether the handler reached the full match response. -/
def SearchResponse.isFound : SearchResponse → Bool
  | .notFound _ _ => false
  | .found _ _ _ _ _ => true

/-- The full match response built from the first matching row (src/backend.py
lines 113-131): parse the row's required skills, flag each one as matched when
it occurs among the resume skills, and compute
`len(matched) / max(1, len(skill_matches))`. -/
def foundResponse (job_title : String) (row : Posting) (resume_skills : List String) :
    SearchResponse :=
  let job_skills := parseSkills row.required_skills
  let skill_matches := job_skills.map fun s => (s, resume_skills.contains s)
  let similarity : ℚ :=
    ((skill_matches.filter fun m => m.2).length : ℚ) / (max 1 skill_matches.length : ℕ)
  .found job_title job_skills resume_skills skill_matches similarity

/-- Model of the /search handler body (src/backend.py lines 88-131): extract
resume skills (with local recovery), filter the catalog by title, answer the
error payload when no row matches, and otherwise build the match response
from the first matching row (`job_row.iloc[0]`). -/
def search (df : List Posting) (ex : ExtractOutcome) (job_title : String) : SearchResponse :=
  match df.filter fun r => titleMatches r.job_title job_title with
  | [] => .notFound "Job title not found" (resumeSkillsOf ex)
  | row :: _ => foundResponse job_title row (resumeSkillsOf ex)

/-! ## Nearest-match mode (/analyze), modelled from the spec -/

/-- Inner-product score of two vectors, the similarity of the vector index
on L2-normalized embeddings, over exact rationals. -/
def dotProduct (v w : List ℚ) : ℚ :=
  (List.zipWith (fun a b => a * b) v w).sum

/-- k=1 retrieval over the index entries: the posting (with its vector) whose
vector has the greatest inner-product score with the query vector, ties
broken in favour of the earlier entry (original dataset order). -/
def nearest1 : List (Posting × List ℚ) → List ℚ → Option (Posting × List ℚ)
  | [], _ => none
  | e :: es, qv =>
    match nearest1 es qv with
    | none => some e
    | some b => if dotProduct b.2 qv > dotProduct e.2 qv then some b else some e

/-- A SkillSet built by comma-splitting raw text: lowercase, trimmed, empty
strings dropped, duplicates removed. -/
def skillSetOf (raw : String) : List String :=
  (parseSkills raw).eraseDups

/-- Rounding to two decimal places. -/
def roundTo2 (x : ℚ) : ℚ :=
  ((round (x * 100) : ℤ) : ℚ) / 100

/-- Response of the /analyze endpoint, per section 6 of the spec; the
match_score percentage is carried as the exact rounded rational behind the
"NN.NN%" rendering. -/
structure AnalyzeResponse where
  dream_job_title : String
  required_skills : List String
  matched_skills : List String
  match_score : ℚ
  job_description : String
deriving DecidableEq

/-- Modelled from the spec: the /analyze endpoint (nearest-match mode of
sections 4.5 and 6) is not present in src/backend.py, which only carries
/search. Following the spec text: embed the dream-job title, retrieve the
single nearest posting (k=1) from the vector index, comma-split the matched
posting's required skills and the raw resume text into two SkillSets, and
answer the ratio of their intersection size to the required-skills set size
(0 if that set is empty) as a percentage rounded to two decimal places,
together with the title, the two skill lists and the posting's description.
The spec also embeds the combined resume+title text; that vector is unused
for retrieval and does not affect the response, so it is not a parameter
here. -/
def analyze (embed : String → List ℚ) (entries : List (Posting × List ℚ))
    (resume_text job_title : String) : Option AnalyzeResponse :=
  match nearest1 entries (embed job_title) with
  | none => none
  | some e =>
    let req := skillSetOf e.1.required_skills
    let matched := req.filter fun s => (skillSetOf resume_text).contains s
    let ratio : ℚ := if req.length = 0 then 0 else (matched.length : ℚ) / (req.length : ℚ)
    some ⟨job_title, req, matched, roundTo2 (ratio * 100), e.1.job_description⟩

/-- Concrete index used to witness the nearest-match claim. -/
def entriesW : List (Posting × List ℚ) :=
  [(⟨"Data Scientist", "ds desc", "python, ml"⟩, [1, 0]),
    (⟨"Web Developer", "web desc", "js, css"⟩, [0, 1])]

/-- Concrete embedding function used to witness the nearest-match claim: it
sends every text to the vector nearest the second index entry. -/
def embedW : String → List ℚ :=
  fun _ => [0, 1]

/-! ## Helper lemmas -/

theorem get_embedding_loop_throttle {α : Type} (outcomes : Nat → InvokeOutcome α)
    (fuel attempt delay : Nat) (sleeps : List Nat) (calls : Nat)
    (h : outcomes attempt = .throttle) :
    get_embedding_loop outcomes (fuel + 1) attempt delay sleeps calls =
      get_embedding_loop outcomes fuel (attempt + 1) (delay * 2) (delay :: sleeps) (calls + 1) := by
  simp [get_embedding_loop, h]

theorem get_embedding_loop_success {α : Type} (outcomes : Nat → InvokeOutcome α)
    (fuel attempt delay : Nat) (sleeps : List Nat) (calls : Nat) (v : α)
    (h : outcomes attempt = .success v) :
    get_embedding_loop outcomes (fuel + 1) attempt delay sleeps calls =
      ⟨calls + 1, sleeps.reverse, .ok v⟩ := by
  simp [get_embedding_loop, h]

theorem get_embedding_loop_clientError {α : Type} (outcomes : Nat → InvokeOutcome α)
    (fuel attempt delay : Nat) (sleeps : List Nat) (calls : Nat) (msg : String)
    (h : outcomes attempt = .clientError msg) :
    get_embedding_loop outcomes (fuel + 1) attempt delay sleeps calls =
      ⟨calls + 1, sleeps.reverse, .error (.clientError msg)⟩ := by
  simp [get_embedding_loop, h]

/-- nearest1 on a non-empty index answers an entry whose score against the
query vector is maximal among all entries. -/
theorem nearest1_spec (qv : List ℚ) (entries : List (Posting × List ℚ)) (hne : entries ≠ []) :
    ∃ m, nearest1 entries qv = some m ∧ m ∈ entries ∧
      ∀ x ∈ entries, dotProduct x.2 qv ≤ dotProduct m.2 qv := by
  induction entries with
  | nil => exact absurd rfl hne
  | cons e es ih =>
    by_cases hes : es = []
    · subst hes
      refine ⟨e, rfl, List.mem_cons_self e [], ?_⟩
      intro x hx
      rw [List.mem_singleton.mp hx]
    · obtain ⟨m, hm, hmem, hmax⟩ := ih hes
      by_cases hgt : dotProduct m.2 qv > dotProduct e.2 qv
      · refine ⟨m, ?_, List.mem_cons_of_mem e hmem, ?_⟩
        · simp [nearest1, hm, hgt]
        · intro x hx
          rcases List.mem_cons.mp hx with rfl | hx
          · exact le_of_lt hgt
          · exact hmax x hx
      · refine ⟨e, ?_, List.mem_cons_self e es, ?_⟩
        · simp [nearest1, hm, hgt]
        · intro x hx
          rcases List.mem_cons.mp hx with rfl | hx
          · exact le_refl _
          · exact le_trans (hmax x hx) (not_lt.mp hgt)

theorem search_eq_of_filter_nil (df : List Posting) (ex : ExtractOutcome) (q : String)
    (hf : df.filter (fun r => titleMatches r.job_title q) = []) :
    search df ex q = .notFound "Job title not found" (resumeSkillsOf ex) := by
  unfold search
  rw [hf]

theorem search_eq_of_filter_cons (df : List Posting) (ex : ExtractOutcome) (q : String)
    (row : Posting) (rest : List Posting)
    (hf : df.filter (fun r => titleMatches r.job_title q) = row :: rest) :
    search df ex q = foundResponse q row (resumeSkillsOf ex) := by
  unfold search
  rw [hf]

/-- The head of a filter is the first element satisfying the filter. -/
theorem find?_eq_of_filter_cons {α : Type} (p : α → Bool) (l : List α) (a : α)
    (rest : List α) (h : l.filter p = a :: rest) : l.find? p = some a := by
  induction l generalizing rest with
  | nil => cases h
  | cons x xs ih =>
    by_cases hx : p x
    · rw [List.filter_cons_of_pos hx] at h
      rw [List.find?_cons_of_pos _ hx]
      exact congrArg some (List.cons.injEq .. |>.mp h).1
    · rw [List.filter_cons_of_neg hx] at h
      rw [List.find?_cons_of_neg _ hx]
      exact ih _ h

/-- If the retry loop ended in the max-retries failure, every remaining
attempt was consumed: the call count grew by exactly the remaining fuel. -/
theorem get_embedding_loop_maxRetries_calls {α : Type} (outcomes : Nat → InvokeOutcome α)
    (fuel : Nat) :
    ∀ (attempt delay : Nat) (sleeps : List Nat) (calls : Nat) (m : String),
      (get_embedding_loop outcomes fuel attempt delay sleeps calls).result =
          .error (.maxRetries m) →
        (get_embedding_loop outcomes fuel attempt delay sleeps calls).calls = calls + fuel := by
  induction fuel with
  | zero =>
    intro attempt delay sleeps calls m _
    rfl
  | succ fuel ih =>
    intro attempt delay sleeps calls m h
    cases ho : outcomes attempt with
    | success v =>
      rw [get_embedding_loop_success outcomes fuel attempt delay sleeps calls v ho] at h
      exact absurd h (by simp)
    | throttle =>
      rw [get_embedding_loop_throttle outcomes fuel attempt delay sleeps calls ho] at h ⊢
      have := ih (attempt + 1) (delay * 2) (delay :: sleeps) (calls + 1) m h
      omega
    | clientError msg =>
      rw [get_embedding_loop_clientError outcomes fuel attempt delay sleeps calls msg ho] at h
      exact absurd h (by simp)

/-! ## Claim theorems -/

/-- C1: when the remote service throttles the first 4 attempts and succeeds
on the 5th, get_embedding issues exactly 5 remote calls, sleeps 1, 2, 4, 8
seconds between consecutive attempts, and returns the successful vector. -/
theorem C1_retry_schedule {α : Type} (outcomes : Nat → InvokeOutcome α) (v : α)
    (h0 : outcomes 0 = .throttle) (h1 : outcomes 1 = .throttle)
    (h2 : outcomes 2 = .throttle) (h3 : outcomes 3 = .throttle)
    (h4 : outcomes 4 = .success v) :
    get_embedding outcomes = ⟨5, [1, 2, 4, 8], .ok v⟩ := by
  simp [get_embedding, get_embedding_loop, h0, h1, h2, h3, h4]

/-- C1 witness: the schedule with 4 throttles then success on a concrete
vector. -/
theorem C1_retry_schedule_witness :
    get_embedding (fun i => if i < 4 then .throttle else .success 42) =
      ⟨5, [1, 2, 4, 8], .ok (42 : Nat)⟩ :=
  C1_retry_schedule (fun i => if i < 4 then .throttle else .success 42) 42 rfl rfl rfl rfl rfl

/-- C6 counterexample: under 5 straight throttles the raised failure does not
carry the message "max retries exceeded" — the message raised by the code is
"Max retries exceeded for Bedrock embedding request". -/
theorem C6_counterexample :
    (get_embedding (fun _ => (InvokeOutcome.throttle : InvokeOutcome Nat))).result ≠
        .error (.maxRetries "max retries exceeded") ∧
      (get_embedding (fun _ => (InvokeOutcome.throttle : InvokeOutcome Nat))).result =
        .error (.maxRetries "Max retries exceeded for Bedrock embedding request") := by
  decide

/-- C6 (amended): when all 5 attempts are throttled, get_embedding issues 5
remote calls, sleeps 1, 2, 4, 8, 16 seconds, and fails with the max-retries
exception carrying the message "Max retries exceeded for Bedrock embedding
request"; moreover the max-retries failure only ever occurs after all 5
attempts have been issued. -/
theorem C6_amended {α : Type} (outcomes : Nat → InvokeOutcome α)
    (h0 : outcomes 0 = .throttle) (h1 : outcomes 1 = .throttle)
    (h2 : outcomes 2 = .throttle) (h3 : outcomes 3 = .throttle)
    (h4 : outcomes 4 = .throttle) :
    get_embedding outcomes =
        ⟨5, [1, 2, 4, 8, 16],
          .error (.maxRetries "Max retries exceeded for Bedrock embedding request")⟩ ∧
      ∀ (outcomes2 : Nat → InvokeOutcome α) (m : String),
        (get_embedding outcomes2).result = .error (.maxRetries m) →
          (get_embedding outcomes2).calls = 5 := by
  refine ⟨by simp [get_embedding, get_embedding_loop, h0, h1, h2, h3, h4], ?_⟩
  intro outcomes2 m h
  exact get_embedding_loop_maxRetries_calls outcomes2 5 0 1 [] 0 m h

/-- C6 witness: all attempts throttled on a concrete schedule. -/
theorem C6_amended_witness :
    get_embedding (fun _ => (InvokeOutcome.throttle : InvokeOutcome Nat)) =
        ⟨5, [1, 2, 4, 8, 16],
          .error (.maxRetries "Max retries exceeded for Bedrock embedding request")⟩ ∧
      ∀ (outcomes2 : Nat → InvokeOutcome Nat) (m : String),
        (get_embedding outcomes2).result = .error (.maxRetries m) →
          (get_embedding outcomes2).calls = 5 :=
  C6_amended (fun _ => InvokeOutcome.throttle) rfl rfl rfl rfl rfl

/-- C7: a non-throttling remote error makes get_embedding fail at once by
re-raising that error. On the first attempt: one remote call, no sleep. And
wherever the retry loop stands when such an error arrives, the run ends with
exactly one more remote call and no additional sleep. -/
theorem C7_non_throttling_error {α : Type} (outcomes : Nat → InvokeOutcome α) (msg : String)
    (h : outcomes 0 = .clientError msg) :
    get_embedding outcomes = ⟨1, [], .error (.clientError msg)⟩ ∧
      ∀ (fuel attempt delay : Nat) (sleeps : List Nat) (calls : Nat),
        outcomes attempt = .clientError msg →
          get_embedding_loop outcomes (fuel + 1) attempt delay sleeps calls =
            ⟨calls + 1, sleeps.reverse, .error (.clientError msg)⟩ := by
  refine ⟨by simp [get_embedding, get_embedding_loop, h], ?_⟩
  intro fuel attempt delay sleeps calls ha
  exact get_embedding_loop_clientError outcomes fuel attempt delay sleeps calls msg ha

/-- C7 witness: a concrete non-throttling remote error. -/
theorem C7_non_throttling_error_witness :
    get_embedding (fun _ => (InvokeOutcome.clientError "ValidationException" : InvokeOutcome Nat)) =
        ⟨1, [], .error (.clientError "ValidationException")⟩ ∧
      ∀ (fuel attempt delay : Nat) (sleeps : List Nat) (calls : Nat),
        (fun _ => (InvokeOutcome.clientError "ValidationException" : InvokeOutcome Nat)) attempt =
            .clientError "ValidationException" →
          get_embedding_loop
              (fun _ => (InvokeOutcome.clientError "ValidationException" : InvokeOutcome Nat))
              (fuel + 1) attempt delay sleeps calls =
            ⟨calls + 1, sleeps.reverse, .error (.clientError "ValidationException")⟩ :=
  C7_non_throttling_error (fun _ => InvokeOutcome.clientError "ValidationException")
    "ValidationException" rfl

/-- C2 counterexample: the posting title "Backend Engineer " (trailing blank)
and the query "backend engineer" are equal once both sides are lowercased and
trimmed, yet the lookup does not resolve the posting, because the code trims
only the query side. -/
theorem C2_counterexample :
    pyLower (pyStrip "Backend Engineer ") = pyLower (pyStrip "backend engineer") ∧
      search [⟨"Backend Engineer ", "d", "sql"⟩] (.err "down") "backend engineer" =
        .notFound "Job title not found" [] := by
  decide

/-- C2 (amended): the exact-title lookup resolves a posting exactly when the
posting title, lowercased but not trimmed, equals the query title trimmed and
lowercased (full-string match); the queries "Backend Engineer",
"backend engineer" and " Backend Engineer " all resolve a posting titled
"Backend Engineer". -/
theorem C2_amended (df : List Posting) (ex : ExtractOutcome) (q : String) :
    ((search df ex q).isFound = true ↔
        ∃ p ∈ df, pyLower p.job_title = pyLower (pyStrip q)) ∧
      titleMatches "Backend Engineer" "Backend Engineer" = true ∧
      titleMatches "Backend Engineer" "backend engineer" = true ∧
      titleMatches "Backend Engineer" " Backend Engineer " = true := by
  refine ⟨?_, by decide, by decide, by decide⟩
  cases hf : df.filter (fun r => titleMatches r.job_title q) with
  | nil =>
    rw [search_eq_of_filter_nil df ex q hf]
    refine iff_of_false (by simp [SearchResponse.isFound]) ?_
    rintro ⟨p, hp, he⟩
    have hmem : p ∈ df.filter (fun r => titleMatches r.job_title q) :=
      List.mem_filter.mpr ⟨hp, by simp [titleMatches, he]⟩
    rw [hf] at hmem
    cases hmem
  | cons row rest =>
    rw [search_eq_of_filter_cons df ex q row rest hf]
    simp only [foundResponse, SearchResponse.isFound, true_iff]
    have hmem : row ∈ df.filter (fun r => titleMatches r.job_title q) := by
      rw [hf]
      exact List.mem_cons_self row rest
    have hrow := List.mem_filter.mp hmem
    exact ⟨row, hrow.1, by simpa [titleMatches] using hrow.2⟩

/-- C3: a matching posting whose required_skills parses to the empty skill
list yields similarity 0, and the denominator the code divides by,
max(1, skill count), is positive, so no division by zero arises. -/
theorem C3_empty_skill_list (df : List Posting) (ex : ExtractOutcome) (q : String)
    (row : Posting) (rest : List Posting)
    (hf : df.filter (fun r => titleMatches r.job_title q) = row :: rest)
    (hp : parseSkills row.required_skills = []) :
    search df ex q = .found q [] (resumeSkillsOf ex) [] 0 ∧
      0 < max 1 (parseSkills row.required_skills).length := by
  refine ⟨?_, lt_of_lt_of_le Nat.zero_lt_one (le_max_left 1 _)⟩
  rw [search_eq_of_filter_cons df ex q row rest hf]
  simp [foundResponse, hp]

/-- C3 witness: a posting whose required_skills holds only separators and
blanks. -/
theorem C3_empty_skill_list_witness :
    (search [⟨"Intern", "d", " , ,"⟩] (.ok "python") "intern" =
        .found "intern" [] (resumeSkillsOf (.ok "python")) [] 0 ∧
      0 < max 1 (parseSkills (" , ," : String)).length) :=
  C3_empty_skill_list [⟨"Intern", "d", " , ,"⟩] (.ok "python") "intern"
    ⟨"Intern", "d", " , ,"⟩ [] (by decide) (by decide)

/-- C4: a failing remote skill extraction is recovered into the empty resume
skill list, and the handler answers exactly what it answers for an empty
extraction — the failure never escapes (search is total into
SearchResponse). -/
theorem C4_extraction_failure_recovered (df : List Posting) (q msg : String) :
    search df (.err msg) q = search df (.ok "") q ∧
      resumeSkillsOf (.err msg) = [] := by
  have h : parseSkills "" = ([] : List String) := by decide
  exact ⟨by simp [search, h, resumeSkillsOf], rfl⟩

/-- C5: when no posting matches the query title, /search answers the
structured payload with error "Job title not found" and the resume skills
extracted before the lookup, as a normal response value. -/
theorem C5_job_not_found (df : List Posting) (ex : ExtractOutcome) (q : String)
    (h : ∀ p ∈ df, titleMatches p.job_title q = false) :
    search df ex q = .notFound "Job title not found" (resumeSkillsOf ex) :=
  search_eq_of_filter_nil df ex q (List.filter_eq_nil_iff.mpr (by simpa using h))

/-- C5 witness: a query title absent from a concrete catalog. -/
theorem C5_job_not_found_witness :
    search [⟨"Data Analyst", "d", "sql"⟩] (.ok "python, sql") "poet" =
      .notFound "Job title not found" (resumeSkillsOf (.ok "python, sql")) :=
  C5_job_not_found [⟨"Data Analyst", "d", "sql"⟩] (.ok "python, sql") "poet" (by decide)

/-- C9: on a one-posting catalog (title "Data Analyst", required skills
"sql,python,excel") and resume skills [python, excel, tableau], /search with
job_title "Data Analyst" answers the matches in required-skills order — sql
unmatched, python and excel matched — and similarity 2/3. -/
theorem C9_data_analyst_example (d : String) (ex : ExtractOutcome)
    (h : resumeSkillsOf ex = ["python", "excel", "tableau"]) :
    search [⟨"Data Analyst", d, "sql,python,excel"⟩] ex "Data Analyst" =
      .found "Data Analyst" ["sql", "python", "excel"] ["python", "excel", "tableau"]
        [("sql", false), ("python", true), ("excel", true)] (2 / 3) := by
  have hf : [(⟨"Data Analyst", d, "sql,python,excel"⟩ : Posting)].filter
      (fun r => titleMatches r.job_title "Data Analyst") =
      [⟨"Data Analyst", d, "sql,python,excel"⟩] := by
    simp [List.filter_cons, show titleMatches "Data Analyst" "Data Analyst" = true from by decide]
  rw [search_eq_of_filter_cons _ ex _ _ _ hf, h]
  have hfr : foundResponse "Data Analyst" ⟨"Data Analyst", d, "sql,python,excel"⟩
      ["python", "excel", "tableau"] =
      .found "Data Analyst" ["sql", "python", "excel"] ["python", "excel", "tableau"]
        [("sql", false), ("python", true), ("excel", true)]
        (((2 : ℕ) : ℚ) / ((3 : ℕ) : ℚ)) := rfl
  rw [hfr]
  norm_num

/-- C9 witness: the extraction completion "python,excel,tableau". -/
theorem C9_data_analyst_example_witness :
    search [⟨"Data Analyst", "d", "sql,python,excel"⟩] (.ok "python,excel,tableau")
        "Data Analyst" =
      .found "Data Analyst" ["sql", "python", "excel"] ["python", "excel", "tableau"]
        [("sql", false), ("python", true), ("excel", true)] (2 / 3) :=
  C9_data_analyst_example "d" (.ok "python,excel,tableau") (by decide)

/-- C10: when several postings match the query title, /search uses the first
matching posting in original dataset order — its response equals the one for
a catalog holding that posting alone — and that posting is the first match of
the catalog. -/
theorem C10_first_match_wins (df : List Posting) (ex : ExtractOutcome) (q : String)
    (row : Posting) (rest : List Posting)
    (hf : df.filter (fun r => titleMatches r.job_title q) = row :: rest) :
    search df ex q = search [row] ex q ∧
      df.find? (fun r => titleMatches r.job_title q) = some row := by
  have hmem : row ∈ df.filter (fun r => titleMatches r.job_title q) := by
    rw [hf]
    exact List.mem_cons_self row rest
  have hrow : titleMatches row.job_title q = true := by
    simpa using (List.mem_filter.mp hmem).2
  refine ⟨?_, find?_eq_of_filter_cons _ df row rest hf⟩
  rw [search_eq_of_filter_cons df ex q row rest hf,
    search_eq_of_filter_cons [row] ex q row [] (by simp [List.filter_cons, hrow])]

/-- C10 witness: two postings whose titles both match the query. -/
theorem C10_first_match_wins_witness :
    search [⟨"Backend Engineer", "first", "go"⟩, ⟨"backend engineer", "second", "rust"⟩]
        (.ok "go") "Backend Engineer" =
      search [⟨"Backend Engineer", "first", "go"⟩] (.ok "go") "Backend Engineer" ∧
      [(⟨"Backend Engineer", "first", "go"⟩ : Posting),
        ⟨"backend engineer", "second", "rust"⟩].find?
          (fun r => titleMatches r.job_title "Backend Engineer") =
        some ⟨"Backend Engineer", "first", "go"⟩ :=
  C10_first_match_wins
    [⟨"Backend Engineer", "first", "go"⟩, ⟨"backend engineer", "second", "rust"⟩]
    (.ok "go") "Backend Engineer" ⟨"Backend Engineer", "first", "go"⟩
    [⟨"backend engineer", "second", "rust"⟩] (by decide)

/-- C8: on a non-empty index, the nearest-match mode retrieves a posting
whose vector score against the title embedding is maximal (k=1 retrieval),
builds the two SkillSets by comma-splitting the posting's required skills
and the raw resume text, and answers their intersection over the
required-skills set size (0 when that set is empty) as a percentage rounded
to two decimal places, with the title, skill lists and description. -/
theorem C8_analyze_nearest_match (embed : String → List ℚ)
    (entries : List (Posting × List ℚ)) (resume_text job_title : String)
    (h : entries ≠ []) :
    ∃ e ∈ entries,
      (∀ e2 ∈ entries, dotProduct e2.2 (embed job_title) ≤ dotProduct e.2 (embed job_title)) ∧
      analyze embed entries resume_text job_title =
        some ⟨job_title, skillSetOf e.1.required_skills,
          (skillSetOf e.1.required_skills).filter (fun s => (skillSetOf resume_text).contains s),
          roundTo2 ((if (skillSetOf e.1.required_skills).length = 0 then (0 : ℚ)
            else (((skillSetOf e.1.required_skills).filter
                (fun s => (skillSetOf resume_text).contains s)).length : ℚ) /
              ((skillSetOf e.1.required_skills).length : ℚ)) * 100),
          e.1.job_description⟩ := by
  obtain ⟨m, hm, hmem, hmax⟩ := nearest1_spec (embed job_title) entries h
  refine ⟨m, hmem, hmax, ?_⟩
  unfold analyze
  rw [hm]

/-- C8 witness: a two-entry index whose second entry is nearest to the title
embedding. -/
theorem C8_analyze_nearest_match_witness :
    ∃ e ∈ entriesW,
      (∀ e2 ∈ entriesW,
        dotProduct e2.2 (embedW "ml engineer") ≤ dotProduct e.2 (embedW "ml engineer")) ∧
      analyze embedW entriesW "python, js" "ml engineer" =
        some ⟨"ml engineer", skillSetOf e.1.required_skills,
          (skillSetOf e.1.required_skills).filter
            (fun s => (skillSetOf "python, js").contains s),
          roundTo2 ((if (skillSetOf e.1.required_skills).length = 0 then (0 : ℚ)
            else (((skillSetOf e.1.required_skills).filter
                (fun s => (skillSetOf "python, js").contains s)).length : ℚ) /
              ((skillSetOf e.1.required_skills).length : ℚ)) * 100),
          e.1.job_description⟩ :=
  C8_analyze_nearest_match embedW entriesW "python, js" "ml engineer" (by decide)

end VertexPath
